import Mathlib

/-!
Shallow embedding of the coordination core of the Realtec Vision Buddmeyer
repository: the tag map (`communication/tag_map.py`), the connection state
value type (`communication/connection_state.py`), the CIP client with its
simulated PLC (`communication/cip_client.py`) and the robot-control state
machine (`control/robot_controller.py`), together with theorems settling
the specification claims about them.

Python values are modelled by `PyValue`; note that in Python `bool` is a
subclass of `int`, which the `isinstance` helpers reproduce.  Stateful
methods become pure functions from an explicit state to the new state plus
a trace of emitted signals / device accesses; fallible operations return
`Except`.  Wall-clock instants (`datetime.now()`) are passed in as `Nat`
parameters.
-/

namespace RealtecVision

/-- Model of a Python runtime value as used by the tag layer.  A Python
`bool` is a separate constructor because `isinstance(value, bool)` can
distinguish it, but it also satisfies `isinstance(value, int)`. -/
inductive PyValue where
  | pybool (b : Bool)
  | pyint (n : Int)
  | pyfloat (q : Rat)
  | pystr (s : String)
  deriving DecidableEq, Repr

/-- `isinstance(value, bool)`. -/
def isinstanceBool : PyValue → Bool
  | .pybool _ => true
  | _ => false

/-- `isinstance(value, int)` — true for Python bools as well, since
`bool` is a subclass of `int`. -/
def isinstanceInt : PyValue → Bool
  | .pybool _ => true
  | .pyint _ => true
  | _ => false

/-- `isinstance(value, (int, float))` — again true for bools. -/
def isinstanceIntOrFloat : PyValue → Bool
  | .pybool _ => true
  | .pyint _ => true
  | .pyfloat _ => true
  | _ => false

/-- `isinstance(value, str)`. -/
def isinstanceStr : PyValue → Bool
  | .pystr _ => true
  | _ => false

/-- Python truthiness of a value (used by `if ... and value:`). -/
def PyValue.truthy : PyValue → Bool
  | .pybool b => b
  | .pyint n => n ≠ 0
  | .pyfloat q => q ≠ 0
  | .pystr s => s ≠ ""

/-! ## tag_map.py -/

/-- `TagType` from `communication/tag_map.py`. -/
inductive TagType where
  | BOOL
  | INT
  | REAL
  | STRING
  deriving DecidableEq, Repr

/-- `TagDirection` from `communication/tag_map.py`. -/
inductive TagDirection where
  | READ
  | WRITE
  | BOTH
  deriving DecidableEq, Repr

/-- `TagDefinition` dataclass (description / default omitted: no claim
mentions them). -/
structure TagDefinition where
  logical_name : String
  plc_name : String
  tag_type : TagType
  direction : TagDirection
  deriving DecidableEq, Repr

/-- `TagDefinition.validate_value`: type-check a value against the tag's
declared type exactly as the chain of `isinstance` tests does. -/
def TagDefinition.validate_value (d : TagDefinition) (value : PyValue) : Bool :=
  match d.tag_type with
  | .BOOL => isinstanceBool value
  | .INT => isinstanceInt value
  | .REAL => isinstanceIntOrFloat value
  | .STRING => isinstanceStr value

/-- The built-in whitelist `TagMap.DEFINITIONS`, transcribed entry by
entry from `communication/tag_map.py`. -/
def DEFINITIONS : List TagDefinition := [
  ⟨"VisionReady", "VisionCtrl_VisionReady", .BOOL, .WRITE⟩,
  ⟨"VisionBusy", "VisionCtrl_VisionBusy", .BOOL, .WRITE⟩,
  ⟨"VisionError", "VisionCtrl_VisionError", .BOOL, .WRITE⟩,
  ⟨"VisionHeartbeat", "VisionCtrl_Heartbeat", .BOOL, .WRITE⟩,
  ⟨"ProductDetected", "PRODUCT_DETECTED", .BOOL, .WRITE⟩,
  ⟨"CentroidX", "CENTROID_X", .REAL, .WRITE⟩,
  ⟨"CentroidY", "CENTROID_Y", .REAL, .WRITE⟩,
  ⟨"Confidence", "CONFIDENCE", .REAL, .WRITE⟩,
  ⟨"DetectionCount", "DETECTION_COUNT", .INT, .WRITE⟩,
  ⟨"ProcessingTime", "PROCESSING_TIME", .REAL, .WRITE⟩,
  ⟨"VisionEchoAck", "VisionCtrl_EchoAck", .BOOL, .WRITE⟩,
  ⟨"VisionDataSent", "VisionCtrl_DataSent", .BOOL, .WRITE⟩,
  ⟨"VisionReadyForNext", "VisionCtrl_ReadyForNext", .BOOL, .WRITE⟩,
  ⟨"SystemFault", "SYSTEM_FAULT", .BOOL, .WRITE⟩,
  ⟨"RobotAck", "ROBOT_ACK", .BOOL, .READ⟩,
  ⟨"RobotReady", "ROBOT_READY", .BOOL, .READ⟩,
  ⟨"RobotError", "ROBOT_ERROR", .BOOL, .READ⟩,
  ⟨"RobotBusy", "RobotStatus_Busy", .BOOL, .READ⟩,
  ⟨"RobotPickComplete", "RobotStatus_PickComplete", .BOOL, .READ⟩,
  ⟨"RobotPlaceComplete", "RobotStatus_PlaceComplete", .BOOL, .READ⟩,
  ⟨"PlcAuthorizeDetection", "RobotCtrl_AuthorizeDetection", .BOOL, .READ⟩,
  ⟨"PlcCycleStart", "RobotCtrl_CycleStart", .BOOL, .READ⟩,
  ⟨"PlcCycleComplete", "RobotCtrl_CycleComplete", .BOOL, .READ⟩,
  ⟨"PlcEmergencyStop", "RobotCtrl_EmergencyStop", .BOOL, .READ⟩,
  ⟨"PlcSystemMode", "RobotCtrl_SystemMode", .INT, .READ⟩,
  ⟨"Heartbeat", "SystemStatus_Heartbeat", .BOOL, .READ⟩,
  ⟨"SystemMode", "SystemStatus_Mode", .INT, .READ⟩,
  ⟨"SafetyGateClosed", "Safety_GateClosed", .BOOL, .READ⟩,
  ⟨"SafetyAreaClear", "Safety_AreaClear", .BOOL, .READ⟩,
  ⟨"SafetyLightCurtainOK", "Safety_LightCurtainOK", .BOOL, .READ⟩,
  ⟨"SafetyEmergencyStop", "Safety_EmergencyStop", .BOOL, .READ⟩]

/-- `self.DEFINITIONS.get(logical_name)` on the dictionary keyed by
logical name. -/
def findDefinition (logical_name : String) : Option TagDefinition :=
  DEFINITIONS.find? (fun d => d.logical_name = logical_name)

/-- A `TagMap` instance: the built-in `DEFINITIONS` plus the
`_custom_mappings` override table loaded once from configuration. -/
structure TagMap where
  custom_mappings : List (String × String)
  deriving DecidableEq, Repr

/-- `TagMap.is_valid_tag`: whitelist membership — built-in definition or
custom override. -/
def TagMap.is_valid_tag (m : TagMap) (logical_name : String) : Bool :=
  (findDefinition logical_name).isSome || (m.custom_mappings.lookup logical_name).isSome

/-- `TagMap.get_plc_name`: custom override first, then the built-in
definition's device name, then the logical name itself as fallback. -/
def TagMap.get_plc_name (m : TagMap) (logical_name : String) : String :=
  match m.custom_mappings.lookup logical_name with
  | some v => v
  | none =>
    match findDefinition logical_name with
    | some d => d.plc_name
    | none => logical_name

/-- `TagMap.is_writable`: from the built-in definition's direction;
tags without a built-in definition are allowed. -/
def TagMap.is_writable (m : TagMap) (logical_name : String) : Bool :=
  match findDefinition logical_name with
  | some d => d.direction = TagDirection.WRITE || d.direction = TagDirection.BOTH
  | none => true

/-- `TagMap.is_readable`: from the built-in definition's direction;
tags without a built-in definition are allowed. -/
def TagMap.is_readable (m : TagMap) (logical_name : String) : Bool :=
  match findDefinition logical_name with
  | some d => d.direction = TagDirection.READ || d.direction = TagDirection.BOTH
  | none => true

/-- `TagMap.validate_value`: delegate to the built-in definition's
type check; tags without a built-in definition pass unconditionally. -/
def TagMap.validate_value (m : TagMap) (logical_name : String) (value : PyValue) : Bool :=
  match findDefinition logical_name with
  | some d => d.validate_value value
  | none => true

/-! ## connection_state.py -/

/-- `ConnectionStatus` enum. -/
inductive ConnectionStatus where
  | DISCONNECTED
  | CONNECTING
  | CONNECTED
  | DEGRADED
  | SIMULATED
  | ERROR
  deriving DecidableEq, Repr

/-- `ConnectionState` dataclass. -/
structure ConnectionState where
  status : ConnectionStatus
  ip : String
  port : Nat
  last_connected : Option Nat := none
  last_error : Option String := none
  error_count : Nat := 0
  reconnect_attempts : Nat := 0
  is_simulated : Bool := false
  deriving DecidableEq, Repr

/-- `ConnectionState.is_connected` property. -/
def ConnectionState.is_connected (s : ConnectionState) : Bool :=
  s.status = ConnectionStatus.CONNECTED ∨ s.status = ConnectionStatus.SIMULATED

/-- `ConnectionState.is_healthy` property. -/
def ConnectionState.is_healthy (s : ConnectionState) : Bool :=
  s.status = ConnectionStatus.CONNECTED ∧ s.error_count = 0

/-! ## cip_client.py — SimulatedPLC -/

/-- The simulated device's tag store (`self._tags` dict): device-level
tag name to current value. -/
def TagStore := String → Option PyValue

/-- Python dict assignment `self._tags[name] = value`. -/
def TagStore.update (t : TagStore) (name : String) (value : PyValue) : TagStore :=
  fun n => if n = name then some value else t n

/-- Deferred callbacks scheduled by `threading.Timer` inside
`SimulatedPLC.write_variable`. -/
inductive SimTimer where
  /-- `threading.Timer(self._ack_delay, self._simulate_robot_ack)` -/
  | robotAckTimer
  /-- `threading.Timer(self._pick_delay, self._simulate_pick_complete)` -/
  | pickCompleteTimer
  deriving DecidableEq, Repr

/-- The seed contents of `SimulatedPLC._tags` built in `__init__`. -/
def SimulatedPLC.initialTags : List (String × PyValue) := [
  ("VisionCtrl_VisionReady", .pybool false),
  ("VisionCtrl_VisionBusy", .pybool false),
  ("VisionCtrl_VisionError", .pybool false),
  ("VisionCtrl_Heartbeat", .pybool false),
  ("PRODUCT_DETECTED", .pybool false),
  ("CENTROID_X", .pyfloat 0),
  ("CENTROID_Y", .pyfloat 0),
  ("CONFIDENCE", .pyfloat 0),
  ("DETECTION_COUNT", .pyint 0),
  ("PROCESSING_TIME", .pyfloat 0),
  ("VisionCtrl_EchoAck", .pybool false),
  ("VisionCtrl_DataSent", .pybool false),
  ("VisionCtrl_ReadyForNext", .pybool false),
  ("SYSTEM_FAULT", .pybool false),
  ("ROBOT_ACK", .pybool false),
  ("ROBOT_READY", .pybool true),
  ("ROBOT_ERROR", .pybool false),
  ("RobotStatus_Busy", .pybool false),
  ("RobotStatus_PickComplete", .pybool false),
  ("RobotStatus_PlaceComplete", .pybool false),
  ("RobotCtrl_AuthorizeDetection", .pybool true),
  ("RobotCtrl_CycleStart", .pybool false),
  ("RobotCtrl_CycleComplete", .pybool false),
  ("RobotCtrl_EmergencyStop", .pybool false),
  ("RobotCtrl_SystemMode", .pyint 1),
  ("SystemStatus_Heartbeat", .pybool false),
  ("SystemStatus_Mode", .pyint 1),
  ("Safety_GateClosed", .pybool true),
  ("Safety_AreaClear", .pybool true),
  ("Safety_LightCurtainOK", .pybool true),
  ("Safety_EmergencyStop", .pybool true)]

/-- The tag store a freshly constructed `SimulatedPLC` holds. -/
def SimulatedPLC.initialStore : TagStore :=
  fun n => SimulatedPLC.initialTags.lookup n

/-- `SimulatedPLC.read_variable`: `self._tags.get(name, 0)`. -/
def SimulatedPLC.read_variable (t : TagStore) (name : String) : PyValue :=
  (t name).getD (.pyint 0)

/-- `SimulatedPLC._reset_robot_flags`: set the nine handshake flags back
to `False`, in source order. -/
def SimulatedPLC.reset_robot_flags (t : TagStore) : TagStore :=
  ((((((((t.update "ROBOT_ACK" (.pybool false)).update
    "RobotStatus_Busy" (.pybool false)).update
    "RobotStatus_PickComplete" (.pybool false)).update
    "RobotStatus_PlaceComplete" (.pybool false)).update
    "RobotCtrl_CycleStart" (.pybool false)).update
    "PRODUCT_DETECTED" (.pybool false)).update
    "VisionCtrl_EchoAck" (.pybool false)).update
    "VisionCtrl_DataSent" (.pybool false)).update
    "VisionCtrl_ReadyForNext" (.pybool false)

/-- `SimulatedPLC.write_variable`: store the value, then fire the
reactive handshake rules.  The two delayed rules schedule a timer; the
`VisionCtrl_ReadyForNext` rule resets the flags synchronously inside the
same call. -/
def SimulatedPLC.write_variable (t : TagStore) (name : String) (value : PyValue) :
    TagStore × List SimTimer :=
  let t1 := t.update name value
  if name = "PRODUCT_DETECTED" ∧ value.truthy then
    (t1, [SimTimer.robotAckTimer])
  else if name = "VisionCtrl_EchoAck" ∧ value.truthy then
    (t1, [SimTimer.pickCompleteTimer])
  else if name = "VisionCtrl_ReadyForNext" ∧ value.truthy then
    (SimulatedPLC.reset_robot_flags t1, [])
  else
    (t1, [])

/-! ## robot_controller.py — state machine -/

/-- `RobotControlState` enum. -/
inductive RobotControlState where
  | INITIALIZING
  | WAITING_AUTHORIZATION
  | DETECTING
  | WAITING_SEND_AUTHORIZATION
  | SENDING_DATA
  | WAITING_ACK
  | ACK_CONFIRMED
  | WAITING_PICK
  | WAITING_PLACE
  | WAITING_CYCLE_START
  | READY_FOR_NEXT
  | ERROR
  | TIMEOUT
  | SAFETY_BLOCKED
  | STOPPED
  deriving DecidableEq, Repr

/-- The `VALID_TRANSITIONS` adjacency table, transcribed set by set. -/
def VALID_TRANSITIONS : RobotControlState → List RobotControlState
  | .STOPPED => [.INITIALIZING]
  | .INITIALIZING => [.WAITING_AUTHORIZATION, .ERROR, .STOPPED]
  | .WAITING_AUTHORIZATION => [.DETECTING, .ERROR, .SAFETY_BLOCKED, .STOPPED]
  | .DETECTING => [.SENDING_DATA, .WAITING_SEND_AUTHORIZATION, .WAITING_AUTHORIZATION,
                   .ERROR, .STOPPED]
  | .WAITING_SEND_AUTHORIZATION => [.SENDING_DATA, .ERROR, .STOPPED]
  | .SENDING_DATA => [.WAITING_ACK, .ERROR, .STOPPED]
  | .WAITING_ACK => [.ACK_CONFIRMED, .TIMEOUT, .ERROR, .STOPPED]
  | .ACK_CONFIRMED => [.WAITING_PICK, .ERROR, .STOPPED]
  | .WAITING_PICK => [.WAITING_PLACE, .TIMEOUT, .ERROR, .STOPPED]
  | .WAITING_PLACE => [.WAITING_CYCLE_START, .TIMEOUT, .ERROR, .STOPPED]
  | .WAITING_CYCLE_START => [.READY_FOR_NEXT, .ERROR, .STOPPED]
  | .READY_FOR_NEXT => [.WAITING_AUTHORIZATION, .STOPPED]
  | .ERROR => [.INITIALIZING, .STOPPED]
  | .TIMEOUT => [.WAITING_AUTHORIZATION, .ERROR, .STOPPED]
  | .SAFETY_BLOCKED => [.WAITING_AUTHORIZATION, .STOPPED]

/-- `DetectionEvent` (the fields `to_plc_data` and the controller use). -/
structure DetectionEvent where
  detected : Bool
  class_name : String := ""
  confidence : Rat := 0
  centroid : Rat × Rat := (0, 0)
  inference_time_ms : Rat := 0
  detection_count : Int := 0
  deriving DecidableEq, Repr

/-- The dictionary returned by `DetectionEvent.to_plc_data`. -/
structure PlcData where
  product_detected : Bool
  centroid_x : Rat
  centroid_y : Rat
  confidence : Rat
  detection_count : Int
  processing_time : Rat
  deriving DecidableEq, Repr

/-- `DetectionEvent.to_plc_data`. -/
def DetectionEvent.to_plc_data (e : DetectionEvent) : PlcData :=
  ⟨e.detected, e.centroid.1, e.centroid.2, e.confidence, e.detection_count,
   e.inference_time_ms⟩

/-- One entry of `self._cycle_steps` as built by `_record_step`. -/
structure CycleStepEntry where
  step : String
  timestamp : Nat
  state : RobotControlState
  deriving DecidableEq, Repr

/-- Qt signals emitted by the controller, collected as a trace, plus the
`logger.warning("invalid_state_transition", ...)` log line that marks a
rejected transition. -/
inductive CtrlEvent where
  | logInvalidTransition (fromState toState : RobotControlState)
  | stateChanged (s : RobotControlState)
  | errorOccurred (msg : String)
  | cycleStep (description : String)
  | detectionSent (e : DetectionEvent)
  deriving DecidableEq, Repr

/-- The mutable controller fields the modelled methods touch. -/
structure ControllerState where
  state : RobotControlState
  previous_state : RobotControlState
  state_enter_time : Nat
  last_error : Option String := none
  current_detection : Option DetectionEvent := none
  cycle_steps : List CycleStepEntry := []
  deriving DecidableEq, Repr

/-- `RobotController._transition_to`.  A request is rejected (and only
logged) when the target is outside the adjacency row *and* differs from
the current state; otherwise the transition is performed: previous
state recorded, state replaced, entry timestamp reset to `now`, and
`state_changed` emitted. -/
def transition_to (c : ControllerState) (now : Nat) (new_state : RobotControlState) :
    ControllerState × List CtrlEvent :=
  if new_state ∉ VALID_TRANSITIONS c.state ∧ c.state ≠ new_state then
    (c, [CtrlEvent.logInvalidTransition c.state new_state])
  else
    ({ c with previous_state := c.state, state := new_state, state_enter_time := now },
     [CtrlEvent.stateChanged new_state])

/-- `RobotController._handle_exception`: record `last_error`, emit
`error_occurred`, then request a transition to `ERROR` through
`_transition_to`. -/
def handle_exception (c : ControllerState) (now : Nat) (error : String) :
    ControllerState × List CtrlEvent :=
  let c1 := { c with last_error := some error }
  let (c2, evs) := transition_to c1 now RobotControlState.ERROR
  (c2, CtrlEvent.errorOccurred error :: evs)

/-- `RobotController._record_step`: append a step entry and emit
`cycle_step`. -/
def record_step (c : ControllerState) (now : Nat) (step_name : String) :
    ControllerState × CtrlEvent :=
  ({ c with cycle_steps := c.cycle_steps ++ [⟨step_name, now, c.state⟩] },
   CtrlEvent.cycleStep step_name)

/-! ## cip_client.py — CIPClient -/

/-- The CIP exception classes a modelled operation can raise. -/
inductive CIPError where
  | connectionError (msg : String)
  | tagError (msg : String)
  deriving DecidableEq, Repr

/-- Recognize a raised `CIPTagError`. -/
def isTagError {α : Type} : Except CIPError α → Bool
  | .error (.tagError _) => true
  | _ => false

/-- Behavior of the real driver's `read_variable` as an oracle: outcome
per device tag name and per attempt index. -/
def DriverReads := String → Nat → Except String PyValue

/-- Behavior of the real driver's `write_variable` as an oracle. -/
def DriverWrites := String → Nat → Except String Unit

/-- The mutable `CIPClient` fields the modelled methods touch.  The
`simulated_plc` field is `self._simulated_plc` (the device the I/O loop
prefers when present); `io_retries` comes from settings. -/
structure CIPClientState where
  tag_map : TagMap
  conn : ConnectionState
  simulated_plc : Option TagStore
  io_retries : Nat
  ip : String := ""
  port : Nat := 0
  timeout : Nat := 0
  simulated : Bool := false

/-- `CIPClient._handle_error`: bump `error_count`, record `last_error`,
and degrade the status after more than five errors while `CONNECTED`
(the reconnect timer it may then start is not modelled). -/
def CIPClientState.handle_error (c : CIPClientState) (error : String) : CIPClientState :=
  let conn := { c.conn with error_count := c.conn.error_count + 1, last_error := some error }
  let conn :=
    if conn.error_count > 5 ∧ conn.status = ConnectionStatus.CONNECTED then
      { conn with status := ConnectionStatus.DEGRADED }
    else conn
  { c with conn := conn }

/-- The retry loop of `CIPClient.read_tag`: up to the given number of
attempts against the simulated device (which never fails) or the real
driver; the returned list records every device access made.  The
fuel-zero case is unreachable because the loop is entered with
`1 + io_retries ≥ 1` attempts. -/
def read_attempts (c : CIPClientState) (driver : DriverReads)
    (logical_name plc_name : String) :
    Nat → Nat → Except CIPError PyValue × List String × CIPClientState
  | 0, _ => (.error (.tagError s!"Erro ao ler TAG {logical_name}"), [], c)
  | remaining + 1, idx =>
    match c.simulated_plc with
    | some tags => (.ok (SimulatedPLC.read_variable tags plc_name), [plc_name], c)
    | none =>
      match driver plc_name idx with
      | .ok v => (.ok v, [plc_name], c)
      | .error e =>
        match remaining with
        | 0 =>
          (.error (.tagError s!"Erro ao ler TAG {logical_name}: {e}"), [plc_name],
           c.handle_error e)
        | r + 1 =>
          let (res, acc, c') := read_attempts c driver logical_name plc_name (r + 1) (idx + 1)
          (res, plc_name :: acc, c')

/-- `CIPClient.read_tag`: connection check, whitelist check, direction
check, then the retry loop on the device name. -/
def read_tag (c : CIPClientState) (driver : DriverReads) (logical_name : String) :
    Except CIPError PyValue × List String × CIPClientState :=
  if !c.conn.is_connected then
    (.error (.connectionError "Não conectado ao CLP"), [], c)
  else if !(c.tag_map.is_valid_tag logical_name) then
    (.error (.tagError s!"TAG não permitido: {logical_name}"), [], c)
  else if !(c.tag_map.is_readable logical_name) then
    (.error (.tagError s!"TAG não pode ser lido: {logical_name}"), [], c)
  else
    read_attempts c driver logical_name (c.tag_map.get_plc_name logical_name)
      (1 + c.io_retries) 0

/-- The retry loop of `CIPClient.write_tag`.  A write against the
simulated device runs its reactive rules (possibly scheduling timers)
and never fails; the real driver may fail per attempt. -/
def write_attempts (c : CIPClientState) (driver : DriverWrites)
    (logical_name plc_name : String) (value : PyValue) :
    Nat → Nat → Except CIPError Bool × List String × List SimTimer × CIPClientState
  | 0, _ => (.error (.tagError s!"Erro ao escrever TAG {logical_name}"), [], [], c)
  | remaining + 1, idx =>
    match c.simulated_plc with
    | some tags =>
      let (tags', timers) := SimulatedPLC.write_variable tags plc_name value
      (.ok true, [plc_name], timers, { c with simulated_plc := some tags' })
    | none =>
      match driver plc_name idx with
      | .ok _ => (.ok true, [plc_name], [], c)
      | .error e =>
        match remaining with
        | 0 =>
          (.error (.tagError s!"Erro ao escrever TAG {logical_name}: {e}"), [plc_name], [],
           c.handle_error e)
        | r + 1 =>
          let (res, acc, tm, c') :=
            write_attempts c driver logical_name plc_name value (r + 1) (idx + 1)
          (res, plc_name :: acc, tm, c')

/-- `CIPClient.write_tag`: connection check, whitelist check, direction
check, value type check, then the retry loop on the device name. -/
def write_tag (c : CIPClientState) (driver : DriverWrites) (logical_name : String)
    (value : PyValue) :
    Except CIPError Bool × List String × List SimTimer × CIPClientState :=
  if !c.conn.is_connected then
    (.error (.connectionError "Não conectado ao CLP"), [], [], c)
  else if !(c.tag_map.is_valid_tag logical_name) then
    (.error (.tagError s!"TAG não permitido: {logical_name}"), [], [], c)
  else if !(c.tag_map.is_writable logical_name) then
    (.error (.tagError s!"TAG não pode ser escrito: {logical_name}"), [], [], c)
  else if !(c.tag_map.validate_value logical_name value) then
    (.error (.tagError s!"Valor inválido para TAG {logical_name}"), [], [], c)
  else
    write_attempts c driver logical_name (c.tag_map.get_plc_name logical_name) value
      (1 + c.io_retries) 0

/-- Accumulated effect of a sequence of `write_tag` calls. -/
structure WriteSeq where
  client : CIPClientState
  accesses : List String
  timers : List SimTimer

/-- One step of the sequential tag writes inside
`write_detection_result`: a raised `CIPError` short-circuits the
remaining writes (`Except.error` carries the state reached so far). -/
def writeSeqStep (driver : DriverWrites) (st : Except WriteSeq WriteSeq)
    (logical_name : String) (value : PyValue) : Except WriteSeq WriteSeq :=
  match st with
  | .error s => .error s
  | .ok s =>
    let (res, acc, tm, c') := write_tag s.client driver logical_name value
    let s' : WriteSeq := ⟨c', s.accesses ++ acc, s.timers ++ tm⟩
    match res with
    | .ok _ => .ok s'
    | .error _ => .error s'

/-- `CIPClient.write_detection_result`: the seven sequential `write_tag`
calls wrapped in `try/except` — any raised error is swallowed and the
method returns `False`; it never raises. -/
def write_detection_result (c : CIPClientState) (driver : DriverWrites)
    (detected : Bool) (centroid_x centroid_y confidence : Rat)
    (detection_count : Int) (processing_time : Rat) : Bool × WriteSeq :=
  let st : Except WriteSeq WriteSeq := .ok ⟨c, [], []⟩
  let st := writeSeqStep driver st "ProductDetected" (.pybool detected)
  let st := writeSeqStep driver st "CentroidX" (.pyfloat centroid_x)
  let st := writeSeqStep driver st "CentroidY" (.pyfloat centroid_y)
  let st := writeSeqStep driver st "Confidence" (.pyfloat confidence)
  let st := writeSeqStep driver st "DetectionCount" (.pyint detection_count)
  let st := writeSeqStep driver st "ProcessingTime" (.pyfloat processing_time)
  let st := writeSeqStep driver st "VisionDataSent" (.pybool true)
  match st with
  | .ok s => (true, s)
  | .error s => (false, s)

/-- The configuration fields `_reload_connection_config` reads. -/
structure CIPConfig where
  ip : String
  port : Nat
  connection_timeout : Nat
  simulated : Bool
  deriving DecidableEq, Repr

/-- `CIPClient._reload_connection_config`. -/
def reload_connection_config (c : CIPClientState) (cfg : CIPConfig) : CIPClientState :=
  { c with
    ip := cfg.ip
    port := cfg.port
    timeout := cfg.connection_timeout
    simulated := cfg.simulated
    conn := { c.conn with ip := cfg.ip, port := cfg.port } }

/-- Outcome of the real driver's `connect_explicit` attempt. -/
inductive ConnectAttempt where
  | success
  | failure (error : String)
  deriving DecidableEq, Repr

/-- `CIPClient._connect_simulated`: instantiate a fresh `SimulatedPLC`,
mark the state simulated, and report success (heartbeat start and the
`connected` signal are not modelled). -/
def connect_simulated (c : CIPClientState) : Bool × CIPClientState :=
  let c := { c with simulated_plc := some SimulatedPLC.initialStore }
  let c := { c with conn := { c.conn with is_simulated := true, status := ConnectionStatus.SIMULATED } }
  (true, c)

/-- `CIPClient.connect`: immediate success if already connected;
otherwise reload the configuration, go to `CONNECTING`, try the real
driver unless forced simulated, and on any failure fall back to the
simulated connection. -/
def connect (c : CIPClientState) (cfg : CIPConfig) (driver : ConnectAttempt) (now : Nat) :
    Bool × CIPClientState :=
  if c.conn.is_connected then (true, c)
  else
    let c := reload_connection_config c cfg
    let c := { c with conn := { c.conn with status := ConnectionStatus.CONNECTING } }
    if !c.simulated then
      match driver with
      | .success =>
        let c := { c with conn := { c.conn with last_connected := some now, status := ConnectionStatus.CONNECTED } }
        (true, c)
      | .failure _ => connect_simulated c
    else
      connect_simulated c

/-! ## robot_controller.py — per-state handlers used by the claims -/

/-- `RobotController._check_safety`: read `PlcEmergencyStop`; an active
emergency means unsafe; a read failure is treated as safe. -/
def check_safety (client : CIPClientState) (driver : DriverReads) :
    Bool × CIPClientState :=
  let (res, _, client') := read_tag client driver "PlcEmergencyStop"
  match res with
  | .ok emergency => (!emergency.truthy, client')
  | .error _ => (true, client')

/-- `RobotController._handle_waiting_authorization`: when disconnected,
request a transition back to `INITIALIZING`; otherwise check safety
(fail → `SAFETY_BLOCKED`), then read `PlcAuthorizeDetection`
(authorized → `DETECTING`); a raised read error is caught by the
handler and only logged. -/
def handle_waiting_authorization (ctrl : ControllerState) (now : Nat)
    (client : CIPClientState) (driver : DriverReads) :
    ControllerState × List CtrlEvent × CIPClientState :=
  if !client.conn.is_connected then
    let (ctrl', evs) := transition_to ctrl now RobotControlState.INITIALIZING
    (ctrl', evs, client)
  else
    let (safe, client1) := check_safety client driver
    if !safe then
      let (ctrl', evs) := transition_to ctrl now RobotControlState.SAFETY_BLOCKED
      (ctrl', evs, client1)
    else
      let (res, _, client2) := read_tag client1 driver "PlcAuthorizeDetection"
      match res with
      | .error _ => (ctrl, [], client2)
      | .ok authorized =>
        if authorized.truthy then
          let (ctrl', evs) := transition_to ctrl now RobotControlState.DETECTING
          (ctrl', evs, client2)
        else (ctrl, [], client2)

/-- The step description `_handle_sending_data` records (the f-string's
numeric formatting is abstracted to `toString`). -/
def send_step_description (d : PlcData) : String :=
  "Coordenadas enviadas ao CLP: (" ++ toString d.centroid_x ++ ", " ++
    toString d.centroid_y ++ ") conf=" ++ toString d.confidence

/-- `RobotController._handle_sending_data`: without a retained detection
go back to `WAITING_AUTHORIZATION`; when disconnected raise through
`_handle_exception`; otherwise call `write_detection_result` — whose
boolean result the handler does not inspect — record the step, emit
`detection_sent`, and request the transition to `WAITING_ACK`. -/
def handle_sending_data (ctrl : ControllerState) (now : Nat)
    (client : CIPClientState) (driver : DriverWrites) :
    ControllerState × List CtrlEvent × CIPClientState :=
  match ctrl.current_detection with
  | none =>
    let (ctrl', evs) := transition_to ctrl now RobotControlState.WAITING_AUTHORIZATION
    (ctrl', evs, client)
  | some det =>
    if !client.conn.is_connected then
      let (ctrl', evs) := handle_exception ctrl now "Não conectado ao CLP"
      (ctrl', evs, client)
    else
      let d := det.to_plc_data
      let (_, s) := write_detection_result client driver d.product_detected
        d.centroid_x d.centroid_y d.confidence d.detection_count d.processing_time
      let (ctrl1, stepEv) := record_step ctrl now (send_step_description d)
      let (ctrl2, evs) := transition_to ctrl1 now RobotControlState.WAITING_ACK
      (ctrl2, stepEv :: CtrlEvent.detectionSent det :: evs, s.client)

/-! ## Concrete fixtures used by witnesses and counterexamples -/

/-- A controller in a given state with neutral remaining fields. -/
def mkCtrl (s : RobotControlState) : ControllerState :=
  { state := s, previous_state := RobotControlState.STOPPED, state_enter_time := 0 }

/-- A connection state with a given status and the default endpoint. -/
def connOf (st : ConnectionStatus) : ConnectionState :=
  { status := st, ip := "192.168.1.50", port := 44818 }

/-- A client connected in simulated mode with a fresh simulated PLC. -/
def simClient : CIPClientState :=
  { tag_map := ⟨[]⟩, conn := { connOf ConnectionStatus.SIMULATED with is_simulated := true },
    simulated_plc := some SimulatedPLC.initialStore, io_retries := 0 }

/-- A client connected to a real driver (no simulated PLC). -/
def realClient : CIPClientState :=
  { tag_map := ⟨[]⟩, conn := connOf ConnectionStatus.CONNECTED,
    simulated_plc := none, io_retries := 0 }

/-- A disconnected client. -/
def disconnClient : CIPClientState :=
  { tag_map := ⟨[]⟩, conn := connOf ConnectionStatus.DISCONNECTED,
    simulated_plc := none, io_retries := 0 }

/-- A driver whose reads always succeed with `False`. -/
def okReads : DriverReads := fun _ _ => Except.ok (PyValue.pybool false)

/-- A driver whose writes always fail. -/
def failWrites : DriverWrites := fun _ _ => Except.error "falha de escrita"

/-- A driver whose writes always succeed. -/
def okWrites : DriverWrites := fun _ _ => Except.ok ()

/-- The nine device-level flag names `_reset_robot_flags` clears, in
source order. -/
def resetFlagNames : List String :=
  ["ROBOT_ACK", "RobotStatus_Busy", "RobotStatus_PickComplete", "RobotStatus_PlaceComplete",
   "RobotCtrl_CycleStart", "PRODUCT_DETECTED", "VisionCtrl_EchoAck", "VisionCtrl_DataSent",
   "VisionCtrl_ReadyForNext"]

/-- The corresponding logical tag names, in the order the specification
lists them. -/
def resetFlagLogicalNames : List String :=
  ["RobotAck", "RobotBusy", "RobotPickComplete", "RobotPlaceComplete",
   "PlcCycleStart", "ProductDetected", "VisionEchoAck", "VisionDataSent",
   "VisionReadyForNext"]

/-- A concrete detection event with a detection. -/
def sampleDetection : DetectionEvent :=
  { detected := true, class_name := "embalagem", confidence := 9/10,
    centroid := (10, 20), inference_time_ms := 5, detection_count := 1 }

/-! ## Theorems for the claims -/

/-- Claim C3: for every state `S` and every target `T` with
`T ∉ adjacency(S)` and `T ≠ S`, a requested transition from `S` to `T`
is rejected and logged, and the controller state is unchanged. -/
theorem C3_invalid_transition_rejected (c : ControllerState) (now : Nat)
    (T : RobotControlState) (h1 : T ∉ VALID_TRANSITIONS c.state) (h2 : T ≠ c.state) :
    transition_to c now T = (c, [CtrlEvent.logInvalidTransition c.state T]) := by
  simp [transition_to, h1, Ne.symm h2]

/-- Witness for claim C3 at the concrete pair `STOPPED → ERROR`. -/
theorem C3_witness :
    RobotControlState.ERROR ∉ VALID_TRANSITIONS (mkCtrl RobotControlState.STOPPED).state ∧
    RobotControlState.ERROR ≠ (mkCtrl RobotControlState.STOPPED).state ∧
    transition_to (mkCtrl RobotControlState.STOPPED) 7 RobotControlState.ERROR =
      (mkCtrl RobotControlState.STOPPED,
       [CtrlEvent.logInvalidTransition RobotControlState.STOPPED RobotControlState.ERROR]) :=
  ⟨by decide, by decide,
   C3_invalid_transition_rejected (mkCtrl RobotControlState.STOPPED) 7
     RobotControlState.ERROR (by decide) (by decide)⟩

/-- Claim C4 counterexample: a self-transition (here `WAITING_ACK` to
`WAITING_ACK`) is *not* a silent no-op — the entry timestamp is reset,
the previous-state field is overwritten, and `state_changed` is
emitted. -/
theorem C4_counterexample :
    (transition_to (mkCtrl RobotControlState.WAITING_ACK) 5 RobotControlState.WAITING_ACK).1.state_enter_time ≠
      (mkCtrl RobotControlState.WAITING_ACK).state_enter_time ∧
    (transition_to (mkCtrl RobotControlState.WAITING_ACK) 5 RobotControlState.WAITING_ACK).1.previous_state ≠
      (mkCtrl RobotControlState.WAITING_ACK).previous_state ∧
    CtrlEvent.stateChanged RobotControlState.WAITING_ACK ∈
      (transition_to (mkCtrl RobotControlState.WAITING_ACK) 5 RobotControlState.WAITING_ACK).2 := by
  decide

/-- Claim C4 (amended): a self-transition is never rejected and keeps
the state itself unchanged, but it records the state as its own
previous state, resets the state-entry timestamp to the present
instant, and emits a `state_changed` notification. -/
theorem C4_self_transition (c : ControllerState) (now : Nat) :
    transition_to c now c.state =
      ({ c with previous_state := c.state, state_enter_time := now },
       [CtrlEvent.stateChanged c.state]) := by
  simp [transition_to]

/-- Witness for claim C4's amended theorem at a concrete controller. -/
theorem C4_witness :
    transition_to (mkCtrl RobotControlState.DETECTING) 9 (mkCtrl RobotControlState.DETECTING).state =
      ({ mkCtrl RobotControlState.DETECTING with
          previous_state := (mkCtrl RobotControlState.DETECTING).state, state_enter_time := 9 },
       [CtrlEvent.stateChanged (mkCtrl RobotControlState.DETECTING).state]) :=
  C4_self_transition (mkCtrl RobotControlState.DETECTING) 9

/-- Claim C9: for every `ConnectionState`, `is_connected` holds iff the
status is `CONNECTED` or `SIMULATED`, and `is_healthy` holds iff the
status is `CONNECTED` and the error count is zero. -/
theorem C9_connection_state_invariants (s : ConnectionState) :
    (s.is_connected = true ↔
      (s.status = ConnectionStatus.CONNECTED ∨ s.status = ConnectionStatus.SIMULATED)) ∧
    (s.is_healthy = true ↔
      (s.status = ConnectionStatus.CONNECTED ∧ s.error_count = 0)) := by
  constructor <;> simp [ConnectionState.is_connected, ConnectionState.is_healthy]

/-- Witness for claim C9 at a concrete connection state. -/
theorem C9_witness :
    ((connOf ConnectionStatus.SIMULATED).is_connected = true ↔
      ((connOf ConnectionStatus.SIMULATED).status = ConnectionStatus.CONNECTED ∨
        (connOf ConnectionStatus.SIMULATED).status = ConnectionStatus.SIMULATED)) ∧
    ((connOf ConnectionStatus.SIMULATED).is_healthy = true ↔
      ((connOf ConnectionStatus.SIMULATED).status = ConnectionStatus.CONNECTED ∧
        (connOf ConnectionStatus.SIMULATED).error_count = 0)) :=
  C9_connection_state_invariants (connOf ConnectionStatus.SIMULATED)

/-- Claim C1 counterexample: an exception escaping the handler while the
machine is in `READY_FOR_NEXT` does *not* put it into `ERROR` — the
forced transition goes through `_transition_to`, whose adjacency check
rejects it, so the machine stays in `READY_FOR_NEXT`. -/
theorem C1_counterexample :
    (handle_exception (mkCtrl RobotControlState.READY_FOR_NEXT) 1 "boom").1.state =
      RobotControlState.READY_FOR_NEXT ∧
    (handle_exception (mkCtrl RobotControlState.READY_FOR_NEXT) 1 "boom").1.state ≠
      RobotControlState.ERROR := by
  decide

/-- Claim C1 (amended): `_handle_exception` always sets `last_error` and
emits the error notification, but the transition to `ERROR` succeeds
exactly when `ERROR` is in the adjacency row of the current state (or
the machine is already in `ERROR`); from `READY_FOR_NEXT`,
`SAFETY_BLOCKED` and `STOPPED` it is rejected and the state is
unchanged. -/
theorem C1_handle_exception_characterization (c : ControllerState) (now : Nat) (error : String) :
    (handle_exception c now error).1.last_error = some error ∧
    CtrlEvent.errorOccurred error ∈ (handle_exception c now error).2 ∧
    ((handle_exception c now error).1.state = RobotControlState.ERROR ↔
      (RobotControlState.ERROR ∈ VALID_TRANSITIONS c.state ∨
        c.state = RobotControlState.ERROR)) ∧
    ((handle_exception c now error).1.state = RobotControlState.ERROR ∨
      (handle_exception c now error).1.state = c.state) := by
  obtain ⟨s, ps, t, le, cd, cs⟩ := c
  cases s <;> simp [handle_exception, transition_to, VALID_TRANSITIONS]

/-- Witness for claim C1's amended theorem at a concrete controller in
`SENDING_DATA`, a state from which the error transition is legal. -/
theorem C1_witness :
    (handle_exception (mkCtrl RobotControlState.SENDING_DATA) 2 "x").1.last_error = some "x" ∧
    CtrlEvent.errorOccurred "x" ∈ (handle_exception (mkCtrl RobotControlState.SENDING_DATA) 2 "x").2 ∧
    ((handle_exception (mkCtrl RobotControlState.SENDING_DATA) 2 "x").1.state = RobotControlState.ERROR ↔
      (RobotControlState.ERROR ∈ VALID_TRANSITIONS (mkCtrl RobotControlState.SENDING_DATA).state ∨
        (mkCtrl RobotControlState.SENDING_DATA).state = RobotControlState.ERROR)) ∧
    ((handle_exception (mkCtrl RobotControlState.SENDING_DATA) 2 "x").1.state = RobotControlState.ERROR ∨
      (handle_exception (mkCtrl RobotControlState.SENDING_DATA) 2 "x").1.state =
        (mkCtrl RobotControlState.SENDING_DATA).state) :=
  C1_handle_exception_characterization (mkCtrl RobotControlState.SENDING_DATA) 2 "x"

/-- A controller in `SENDING_DATA` holding a retained detection. -/
def ctrlSending : ControllerState :=
  { mkCtrl RobotControlState.SENDING_DATA with current_detection := some sampleDetection }

/-- Claim C2: in `SENDING_DATA` with a retained detection and a
connected client, a *failed* payload write nevertheless leaves the
machine in `WAITING_ACK`: `write_detection_result` swallows the raised
error and returns `False`, and `_handle_sending_data` never inspects
that result, so the failure path to `ERROR` is unreachable. -/
theorem C2_failed_payload_write_still_reaches_waiting_ack :
    (write_detection_result realClient failWrites true 10 20 (9/10) 1 5).1 = false ∧
    (handle_sending_data ctrlSending 3 realClient failWrites).1.state =
      RobotControlState.WAITING_ACK := by
  decide

/-- Claim C5: in `WAITING_AUTHORIZATION` with the connection manager
disconnected, the tick handler requests a transition to `INITIALIZING`,
but `INITIALIZING` is not in `VALID_TRANSITIONS[WAITING_AUTHORIZATION]`,
so the request is rejected (only logged) and the machine stays in
`WAITING_AUTHORIZATION`. -/
theorem C5_disconnected_authorization_transition_rejected :
    (handle_waiting_authorization (mkCtrl RobotControlState.WAITING_AUTHORIZATION) 4
        disconnClient okReads).1.state = RobotControlState.WAITING_AUTHORIZATION ∧
    (handle_waiting_authorization (mkCtrl RobotControlState.WAITING_AUTHORIZATION) 4
        disconnClient okReads).2.1 =
      [CtrlEvent.logInvalidTransition RobotControlState.WAITING_AUTHORIZATION
        RobotControlState.INITIALIZING] := by
  decide

/-- Claim C6: for every logical tag name outside the whitelist,
`read_tag` and `write_tag` never access the device (no device reads or
writes, no simulator timers, client unchanged), and — whenever the
connection check passes — both raise `CIPTagError`. -/
theorem C6_invalid_tag_never_reaches_device (c : CIPClientState)
    (rdriver : DriverReads) (wdriver : DriverWrites) (name : String) (value : PyValue)
    (h : c.tag_map.is_valid_tag name = false) :
    (read_tag c rdriver name).2.1 = [] ∧
    (write_tag c wdriver name value).2.1 = [] ∧
    (write_tag c wdriver name value).2.2.1 = [] ∧
    (write_tag c wdriver name value).2.2.2 = c ∧
    (read_tag c rdriver name).2.2 = c ∧
    (c.conn.is_connected = true →
      isTagError (read_tag c rdriver name).1 = true ∧
      isTagError (write_tag c wdriver name value).1 = true) := by
  cases hc : c.conn.is_connected <;>
    simp [read_tag, write_tag, hc, h, isTagError]

/-- Witness for claim C6 at the unknown logical name
`"TagInexistente"` against the connected simulated client. -/
theorem C6_witness :
    simClient.tag_map.is_valid_tag "TagInexistente" = false ∧
    (read_tag simClient okReads "TagInexistente").2.1 = [] ∧
    (write_tag simClient okWrites "TagInexistente" (PyValue.pybool true)).2.1 = [] ∧
    isTagError (read_tag simClient okReads "TagInexistente").1 = true ∧
    isTagError (write_tag simClient okWrites "TagInexistente" (PyValue.pybool true)).1 = true := by
  have h := C6_invalid_tag_never_reaches_device simClient okReads okWrites
    "TagInexistente" (PyValue.pybool true) (by decide)
  exact ⟨by decide, h.1, h.2.1, (h.2.2.2.2.2 (by decide)).1, (h.2.2.2.2.2 (by decide)).2⟩

/-- `write_variable` on `VisionCtrl_ReadyForNext = True` takes the
synchronous reset branch. -/
theorem write_variable_ready_for_next_eq (t : TagStore) :
    SimulatedPLC.write_variable t "VisionCtrl_ReadyForNext" (PyValue.pybool true) =
      (SimulatedPLC.reset_robot_flags
        (t.update "VisionCtrl_ReadyForNext" (PyValue.pybool true)), []) := rfl

/-- Claim C7: writing `VisionCtrl_ReadyForNext = True` to the simulated
device schedules no timer, synchronously resets exactly the nine
documented flags to `False`, leaves every other tag at its prior value,
and the nine device names are precisely the tag-map images of the nine
logical names the specification lists. -/
theorem C7_ready_for_next_resets_exactly_nine_flags (t : TagStore) :
    (SimulatedPLC.write_variable t "VisionCtrl_ReadyForNext" (PyValue.pybool true)).2 = [] ∧
    (∀ n ∈ resetFlagNames,
      (SimulatedPLC.write_variable t "VisionCtrl_ReadyForNext" (PyValue.pybool true)).1 n =
        some (PyValue.pybool false)) ∧
    (∀ n, n ∉ resetFlagNames →
      (SimulatedPLC.write_variable t "VisionCtrl_ReadyForNext" (PyValue.pybool true)).1 n = t n) ∧
    resetFlagNames = resetFlagLogicalNames.map (TagMap.get_plc_name ⟨[]⟩) := by
  refine ⟨rfl, ?_, ?_, by decide⟩
  · intro n hn
    simp [resetFlagNames] at hn
    rcases hn with rfl | rfl | rfl | rfl | rfl | rfl | rfl | rfl | rfl <;> rfl
  · intro n hn
    simp [resetFlagNames] at hn
    obtain ⟨h1, h2, h3, h4, h5, h6, h7, h8, h9⟩ := hn
    rw [write_variable_ready_for_next_eq]
    simp [SimulatedPLC.reset_robot_flags, TagStore.update,
          h1, h2, h3, h4, h5, h6, h7, h8, h9]

/-- Witness for claim C7 on the fresh simulated device: no timer, the
`ROBOT_ACK` flag is cleared, and an unrelated tag keeps its value. -/
theorem C7_witness :
    (SimulatedPLC.write_variable SimulatedPLC.initialStore "VisionCtrl_ReadyForNext"
      (PyValue.pybool true)).2 = [] ∧
    (SimulatedPLC.write_variable SimulatedPLC.initialStore "VisionCtrl_ReadyForNext"
      (PyValue.pybool true)).1 "ROBOT_ACK" = some (PyValue.pybool false) ∧
    (SimulatedPLC.write_variable SimulatedPLC.initialStore "VisionCtrl_ReadyForNext"
      (PyValue.pybool true)).1 "Safety_GateClosed" =
      SimulatedPLC.initialStore "Safety_GateClosed" := by
  have h := C7_ready_for_next_resets_exactly_nine_flags SimulatedPLC.initialStore
  exact ⟨h.1, h.2.1 "ROBOT_ACK" (by decide), h.2.2.1 "Safety_GateClosed" (by decide)⟩

/-- Claim C8: `connect` always reports success and always ends
connected — real success connects, real failure and forced-simulated
both fall back to the simulated connection — and when already connected
it returns immediately with the client untouched. -/
theorem C8_connect_always_succeeds (c : CIPClientState) (cfg : CIPConfig)
    (driver : ConnectAttempt) (now : Nat) :
    (connect c cfg driver now).1 = true ∧
    (connect c cfg driver now).2.conn.is_connected = true ∧
    (c.conn.is_connected = true → connect c cfg driver now = (true, c)) := by
  cases hc : c.conn.is_connected
  · have hc' := hc
    simp [ConnectionState.is_connected] at hc'
    cases hs : cfg.simulated <;> cases driver <;>
      simp [connect, reload_connection_config, connect_simulated, hc, hc', hs,
            ConnectionState.is_connected]
  · simp [connect, hc]

/-- Witness for claim C8 at the already-connected simulated client. -/
theorem C8_witness :
    simClient.conn.is_connected = true ∧
    connect simClient ⟨"10.0.0.1", 44818, 5, false⟩ ConnectAttempt.success 5 =
      (true, simClient) := by
  have h := C8_connect_always_succeeds simClient ⟨"10.0.0.1", 44818, 5, false⟩
    ConnectAttempt.success 5
  exact ⟨by decide, h.2.2 (by decide)⟩

/-- Claim C10: type validation accepts a Python boolean for `INT` and
`REAL` tags (since `bool` is a subclass of `int`), rejects plain
integers for `BOOL` tags, and `write_tag("DetectionCount", True)`
passes validation and reaches the device. -/
theorem C10_bool_passes_int_and_real_validation (d : TagDefinition) (b : Bool) (n : Int) :
    (d.tag_type = TagType.INT → d.validate_value (PyValue.pybool b) = true) ∧
    (d.tag_type = TagType.REAL → d.validate_value (PyValue.pybool b) = true) ∧
    (d.tag_type = TagType.BOOL → d.validate_value (PyValue.pyint n) = false) ∧
    (write_tag simClient okWrites "DetectionCount" (PyValue.pybool true)).2.1 =
      ["DETECTION_COUNT"] := by
  refine ⟨fun h => ?_, fun h => ?_, fun h => ?_, by decide⟩
  · simp [TagDefinition.validate_value, h, isinstanceInt]
  · simp [TagDefinition.validate_value, h, isinstanceIntOrFloat]
  · simp [TagDefinition.validate_value, h, isinstanceBool]

/-- Witness for claim C10 at the concrete `DetectionCount` (INT),
`Confidence` (REAL) and `VisionReady` (BOOL) definitions. -/
theorem C10_witness :
    ((⟨"DetectionCount", "DETECTION_COUNT", TagType.INT, TagDirection.WRITE⟩ :
        TagDefinition).validate_value (PyValue.pybool true) = true) ∧
    ((⟨"Confidence", "CONFIDENCE", TagType.REAL, TagDirection.WRITE⟩ :
        TagDefinition).validate_value (PyValue.pybool true) = true) ∧
    ((⟨"VisionReady", "VisionCtrl_VisionReady", TagType.BOOL, TagDirection.WRITE⟩ :
        TagDefinition).validate_value (PyValue.pyint 0) = false) ∧
    ((⟨"VisionReady", "VisionCtrl_VisionReady", TagType.BOOL, TagDirection.WRITE⟩ :
        TagDefinition).validate_value (PyValue.pyint 1) = false) ∧
    (write_tag simClient okWrites "DetectionCount" (PyValue.pybool true)).2.1 =
      ["DETECTION_COUNT"] := by
  have h1 := C10_bool_passes_int_and_real_validation
    ⟨"DetectionCount", "DETECTION_COUNT", TagType.INT, TagDirection.WRITE⟩ true 0
  have h2 := C10_bool_passes_int_and_real_validation
    ⟨"Confidence", "CONFIDENCE", TagType.REAL, TagDirection.WRITE⟩ true 0
  have h3 := C10_bool_passes_int_and_real_validation
    ⟨"VisionReady", "VisionCtrl_VisionReady", TagType.BOOL, TagDirection.WRITE⟩ true 0
  have h4 := C10_bool_passes_int_and_real_validation
    ⟨"VisionReady", "VisionCtrl_VisionReady", TagType.BOOL, TagDirection.WRITE⟩ true 1
  exact ⟨h1.1 rfl, h2.2.1 rfl, h3.2.2.1 rfl, h4.2.2.1 rfl, h1.2.2.2⟩

end RealtecVision
